import Mathlib

/-!
Shallow embedding of the arbitrage scan-and-trade engine: the opportunity
evaluator (`simulateArbitrageOpportunity`), the trade executor
(`executeArbitrage`), and the engine lifecycle / scan-tick state machine
(`start`, `stop`, `scanForOpportunities`, `executeTrade`).  External
collaborators (the Jupiter quote API, swap building, chain submission) are
abstracted as oracle functions passed in; on-chain amounts are `Nat` raw
smallest units, and the source's floating-point arithmetic is embedded in `ℚ`.
Storage writes and WebSocket broadcasts are recorded as an explicit event log.
-/

namespace ArbBot

/-- A priced Jupiter quote: the raw input and output amounts in the asset's
smallest units (the `parseInt` of the JSON string fields `inAmount` and
`outAmount`). -/
structure JupiterQuote where
  inAmount : Nat
  outAmount : Nat
deriving Repr, DecidableEq

/-- The smallest-unit scale `1e9` the source divides by throughout. -/
def lamports : ℚ := 1000000000

/-- Result record of `simulateArbitrageOpportunity`. -/
structure OppResult where
  profitOpportunity : ℚ
  profitPercentage : ℚ
  priceA : ℚ
  priceB : ℚ
deriving Repr, DecidableEq

/-- Embedding of `SolanaService.simulateArbitrageOpportunity`.  The `quotes`
oracle abstracts `getQuote` (which returns `null` on any plumbing failure,
embedded as `none`); amounts handed to the oracle are in whole token units,
exactly as the source passes them. -/
def simulateArbitrageOpportunity
    (quotes : String → String → ℚ → Option JupiterQuote)
    (tokenA tokenB : String) (amount : ℚ) : Option OppResult :=
  match quotes tokenA tokenB amount with
  | none => none
  | some quoteAtoB =>
    match quotes tokenB tokenA ((quoteAtoB.outAmount : ℚ) / lamports) with
    | none => none
    | some quoteBtoA =>
      let inputAmount := amount
      let outputAmount := (quoteBtoA.outAmount : ℚ) / lamports
      let profit := outputAmount - inputAmount
      some { profitOpportunity := profit
           , profitPercentage := profit / inputAmount * 100
           , priceA := (quoteAtoB.outAmount : ℚ) / ((quoteAtoB.inAmount : ℚ) / lamports)
           , priceB := (quoteBtoA.outAmount : ℚ) / ((quoteBtoA.inAmount : ℚ) / lamports) }

/-- Result record of `SolanaService.executeArbitrage`. -/
structure ArbResult where
  success : Bool
  txSignature : Option String := none
  profit : Option ℚ := none
  error : Option String := none
deriving Repr, DecidableEq

/-- Oracles for the live-trade path: `swapTx` abstracts
`getSwapTransaction` (returns the serialized transaction blob or `null`) and
`sendTx` abstracts `executeSwap` (returns the confirmed signature or `null`). -/
structure LiveEnv where
  swapTx : JupiterQuote → Option String
  sendTx : String → Option String

/-- Embedding of `SolanaService.executeArbitrage`.  `hasWallet` is whether
`this.wallet` is set; `now` is `Date.now()` at the moment the mock signature
is minted. -/
def executeArbitrage
    (quotes : String → String → ℚ → Option JupiterQuote)
    (env : LiveEnv) (hasWallet : Bool)
    (tokenA tokenB : String) (amount : ℚ) (mockMode : Bool) (now : Nat) :
    ArbResult :=
  if mockMode then
    match simulateArbitrageOpportunity quotes tokenA tokenB amount with
    | none => { success := false, error := some "Failed to simulate trade" }
    | some simulation =>
      { success := true
      , txSignature := some ("mock_tx_" ++ toString now)
      , profit := some simulation.profitOpportunity }
  else if !hasWallet then
    { success := false, error := some "Wallet not initialized" }
  else
    match quotes tokenA tokenB amount with
    | none => { success := false, error := some "Failed to get quote A->B" }
    | some quoteAtoB =>
      match env.swapTx quoteAtoB with
      | none => { success := false, error := some "Failed to get swap transaction A->B" }
      | some tx1 =>
        match env.sendTx tx1 with
        | none => { success := false, error := some "Failed to execute swap A->B" }
        | some _ =>
          match quotes tokenB tokenA ((quoteAtoB.outAmount : ℚ) / lamports) with
          | none => { success := false, error := some "Failed to get quote B->A" }
          | some quoteBtoA =>
            match env.swapTx quoteBtoA with
            | none => { success := false, error := some "Failed to get swap transaction B->A" }
            | some tx2 =>
              match env.sendTx tx2 with
              | none => { success := false, error := some "Failed to execute swap B->A" }
              | some sig2 =>
                { success := true
                , txSignature := some sig2
                , profit := some ((quoteBtoA.outAmount : ℚ) / lamports - amount) }

/-- Bot configuration (`BotConfig`), with the numeric string fields
(`profitThreshold`, `maxTradeAmount`) embedded as their `parseFloat` values. -/
structure BotConfig where
  id : String
  userId : String
  tokenA : String
  tokenB : String
  profitThreshold : ℚ
  maxTradeAmount : ℚ
  scanInterval : Nat
  mockMode : Bool
  privateKey : Option String := none
deriving Repr, DecidableEq

/-- Trade status enumeration from the schema. -/
inductive TradeStatus
  | pending
  | completed
  | failed
deriving Repr, DecidableEq

/-- A trade record (`NewTrade`), numeric string fields embedded as `ℚ`. -/
structure TradeRecord where
  id : String
  userId : String
  configId : String
  tokenA : String
  tokenB : String
  amountIn : ℚ
  amountOut : ℚ
  profit : ℚ
  profitPercentage : ℚ
  status : TradeStatus
  txSignature : Option String := none
  errorMessage : Option String := none
  executedAt : Nat
  isMock : Bool
deriving Repr, DecidableEq

/-- An opportunity record (`NewArbitrageOpportunity`). -/
structure OpportunityRecord where
  id : String
  userId : String
  tokenA : String
  tokenB : String
  priceA : ℚ
  priceB : ℚ
  profitOpportunity : ℚ
  profitPercentage : ℚ
  amountRequired : ℚ
  dexA : String
  dexB : String
  detectedAt : Nat
  wasExecuted : Bool
  executedTradeId : Option String := none
deriving Repr, DecidableEq

/-- The patch `updateOpportunity` receives in `executeTrade`:
`{ wasExecuted: true, executedTradeId: tradeId }`. -/
structure OppPatch where
  wasExecuted : Bool
  executedTradeId : Option String
deriving Repr, DecidableEq

/-- Mutable run state of `ArbitrageBot`: `isRunning`, whether `scanInterval`
holds an armed timer, `currentConfig`, `lastScanTime`, `errorCount`. -/
structure EngineState where
  isRunning : Bool
  scanIntervalArmed : Bool
  currentConfig : Option BotConfig
  lastScanTime : Nat
  errorCount : Nat
deriving Repr, DecidableEq

/-- Fresh engine state: all fields at their field initializers. -/
def initialState : EngineState :=
  { isRunning := false, scanIntervalArmed := false, currentConfig := none
  , lastScanTime := 0, errorCount := 0 }

/-- The source's `MAX_ERRORS` ceiling. -/
def MAX_ERRORS : Nat := 5

/-- One observable effect of the engine: a storage write
(create/update of an opportunity or trade), the executor invocation, or a
WebSocket broadcast. -/
inductive Event
  | createOpportunity (record : OpportunityRecord)
  | updateOpportunity (id : String) (patch : OppPatch)
  | createTrade (record : TradeRecord)
  | updateTrade (id : String) (record : TradeRecord)
  | invokeExecutor (tokenA tokenB : String) (amount : ℚ) (mockMode : Bool)
  | broadcastStatus (isRunning : Bool) (configId : String)
      (lastScanTime : Nat) (errorMessage : Option String)
  | broadcastOpportunity (record : OpportunityRecord)
  | broadcastTrade (record : TradeRecord)
deriving Repr, DecidableEq

/-- `broadcastBotStatus`: snapshots the current run state into a
`bot_status` message. -/
def broadcastBotStatus (s : EngineState) (errorMessage : Option String) : Event :=
  .broadcastStatus s.isRunning
    (match s.currentConfig with
     | some c => c.id
     | none => "")
    s.lastScanTime errorMessage

/-- The `running` getter. -/
def EngineState.running (s : EngineState) : Bool := s.isRunning

/-- The `config` getter: returns `currentConfig` unconditionally. -/
def EngineState.config (s : EngineState) : Option BotConfig := s.currentConfig

/-- The `errors` getter. -/
def EngineState.errors (s : EngineState) : Nat := s.errorCount

/-- `ArbitrageBot.stop`: no-op when idle; otherwise clears the running flag,
disarms the timer, and broadcasts a status event. -/
def stop (s : EngineState) : EngineState × List Event :=
  if s.isRunning then
    let s' : EngineState := { s with isRunning := false, scanIntervalArmed := false }
    (s', [broadcastBotStatus s' none])
  else (s, [])

/-- `ArbitrageBot.start`: fails when already running; otherwise installs the
config, resets the error counter, loads the wallet when a private key is
supplied (`walletOk` is the outcome of `setWallet`; a failure is thrown,
caught, and reported), then transitions to running and arms the timer.  The
initial scan `startScanning` fires is a separate `scanForOpportunities`
application. -/
def start (s : EngineState) (cfg : BotConfig) (walletOk : Bool) :
    EngineState × Bool × List Event :=
  if s.isRunning then (s, false, [])
  else
    let s1 : EngineState := { s with currentConfig := some cfg, errorCount := 0 }
    if cfg.privateKey.isSome && !walletOk then
      let s2 : EngineState := { s1 with isRunning := false }
      (s2, false, [broadcastBotStatus s2 (some "Failed to load wallet")])
    else
      let s2 : EngineState := { s1 with isRunning := true, scanIntervalArmed := true }
      (s2, true, [broadcastBotStatus s2 none])

/-- Outcome of the `simulateArbitrageOpportunity` call a tick makes: a thrown
exception, a `null` result, or data. -/
inductive EvalOutcome
  | throws (msg : String)
  | noData
  | data (o : OppResult)
deriving Repr, DecidableEq

/-- Outcome of the `executeArbitrage` call `executeTrade` makes: a thrown
exception (caught by `executeTrade`'s try/catch) or a returned result. -/
inductive ExecOutcome
  | throws (msg : String)
  | result (r : ArbResult)
deriving Repr, DecidableEq

/-- The pending trade record `executeTrade` creates before any chain
interaction. -/
def mkPendingTrade (cfg : BotConfig) (tradeId : String) (now : Nat) : TradeRecord :=
  { id := tradeId, userId := cfg.userId, configId := cfg.id
  , tokenA := cfg.tokenA, tokenB := cfg.tokenB
  , amountIn := cfg.maxTradeAmount, amountOut := 0
  , profit := 0, profitPercentage := 0
  , status := .pending, txSignature := none, errorMessage := none
  , executedAt := now, isMock := cfg.mockMode }

/-- Embedding of `ArbitrageBot.executeTrade`: creates and broadcasts a pending
trade, invokes the executor, and on each outcome updates the trade (and on
success the opportunity) and broadcasts the updated record.  Returns the
event log of the call. -/
def executeTrade (cfg : BotConfig) (opp : OpportunityRecord)
    (tradeId : String) (now : Nat) (exec : ExecOutcome) : List Event :=
  let pend := mkPendingTrade cfg tradeId now
  [.createTrade pend, .broadcastTrade pend,
   .invokeExecutor cfg.tokenA cfg.tokenB cfg.maxTradeAmount cfg.mockMode] ++
  match exec with
  | .result r =>
    if r.success then
      let p := r.profit.getD 0
      let updatedTrade : TradeRecord :=
        { pend with
          amountOut := pend.amountIn + p,
          profit := p,
          profitPercentage := p / pend.amountIn * 100,
          txSignature := r.txSignature,
          status := .completed }
      [.updateTrade tradeId updatedTrade,
       .updateOpportunity opp.id { wasExecuted := true, executedTradeId := some tradeId },
       .broadcastTrade updatedTrade]
    else
      let failedTrade : TradeRecord :=
        { pend with status := .failed, errorMessage := r.error }
      [.updateTrade tradeId failedTrade, .broadcastTrade failedTrade]
  | .throws msg =>
    let errorTrade : TradeRecord :=
      { pend with status := .failed, errorMessage := some msg }
    [.updateTrade tradeId errorTrade, .broadcastTrade errorTrade]

/-- Embedding of `ArbitrageBot.scanForOpportunities` (one tick).  `now` is
`Date.now()`, `ev` the evaluator outcome, `exec` the executor outcome should a
trade be attempted, `oppId`/`tradeId` the `nanoid()`s drawn.  Returns the
post-tick state and the tick's event log. -/
def scanForOpportunities (s : EngineState) (now : Nat) (ev : EvalOutcome)
    (exec : ExecOutcome) (oppId tradeId : String) : EngineState × List Event :=
  match s.currentConfig, s.isRunning with
  | none, _ => (s, [])
  | some _, false => (s, [])
  | some cfg, true =>
    let s1 : EngineState := { s with lastScanTime := now }
    match ev with
    | .noData => (s1, [])
    | .data o =>
      if o.profitPercentage ≥ cfg.profitThreshold then
        let record : OpportunityRecord :=
          { id := oppId, userId := cfg.userId
          , tokenA := cfg.tokenA, tokenB := cfg.tokenB
          , priceA := o.priceA, priceB := o.priceB
          , profitOpportunity := o.profitOpportunity
          , profitPercentage := o.profitPercentage
          , amountRequired := cfg.maxTradeAmount
          , dexA := "Jupiter", dexB := "Jupiter"
          , detectedAt := now, wasExecuted := false, executedTradeId := none }
        ({ s1 with errorCount := 0 },
         [.createOpportunity record, .broadcastOpportunity record]
           ++ executeTrade cfg record tradeId now exec)
      else
        ({ s1 with errorCount := 0 }, [])
    | .throws _ =>
      let s2 : EngineState := { s1 with errorCount := s1.errorCount + 1 }
      if s2.errorCount ≥ MAX_ERRORS then
        let stopped := stop s2
        (stopped.1,
         stopped.2 ++ [broadcastBotStatus stopped.1 (some "Too many errors occurred")])
      else (s2, [])

/-- Discriminator: is this event an opportunity creation? -/
def Event.isCreateOpportunity : Event → Bool
  | .createOpportunity _ => true
  | _ => false

/-- Discriminator: is this event a trade creation? -/
def Event.isCreateTrade : Event → Bool
  | .createTrade _ => true
  | _ => false

/-- Discriminator: is this event the executor invocation? -/
def Event.isInvokeExecutor : Event → Bool
  | .invokeExecutor _ _ _ _ => true
  | _ => false

/-- Discriminator: is this event an opportunity broadcast? -/
def Event.isBroadcastOpportunity : Event → Bool
  | .broadcastOpportunity _ => true
  | _ => false

/-- Discriminator: is this event a `bot_status` broadcast carrying a
non-empty error message? -/
def Event.nonEmptyErrorStatus : Event → Bool
  | .broadcastStatus _ _ _ (some m) => m != ""
  | _ => false

/-- Replays a log's storage writes for trade `id` and returns the last
record written for it (`none` if the trade was never written). -/
def lastTradeWrite (events : List Event) (id : String) : Option TradeRecord :=
  events.foldl (fun acc e =>
    match e with
    | .createTrade t => if t.id = id then some t else acc
    | .updateTrade i t => if i = id then some t else acc
    | _ => acc) none

/-- Whether an executor outcome is a failure from `executeTrade`'s point of
view: a result with `success = false`, or a thrown exception. -/
def execFails : ExecOutcome → Prop
  | .result r => r.success = false
  | .throws _ => True

/-- The error message `executeTrade` records for a failing outcome:
`result.error` on a failure result, `error.message` on a throw. -/
def execErrorMessage : ExecOutcome → Option String
  | .result r => r.error
  | .throws msg => some msg

/-- Per-leg effective price as the spec's words read: output amount over
input amount with both sides in the same unit scale.  Modelled from the spec
for comparison with the formula the source computes. -/
def sameScalePrice (q : JupiterQuote) : ℚ :=
  (q.outAmount : ℚ) / (q.inAmount : ℚ)

/-- A concrete configuration used to instantiate the theorems. -/
def cfgEx : BotConfig :=
  { id := "cfg1", userId := "u1"
  , tokenA := "So11111111111111111111111111111111111111112"
  , tokenB := "EPjFWdd5AufqSSqeM2qN1xzybapC8G4wEGGkZwyTDt1v"
  , profitThreshold := 1/2, maxTradeAmount := 1/10
  , scanInterval := 5, mockMode := true }

/-- A constant quote oracle: every request yields a quote of 2e9 raw units in
and 2e9 raw units out. -/
def quotesFlat : String → String → ℚ → Option JupiterQuote :=
  fun _ _ _ => some { inAmount := 2000000000, outAmount := 2000000000 }

/-- A constant quote oracle matching the spec's worked scenario: 0.1 in,
0.1007 out (raw units 100000000 and 100700000). -/
def quotesGain : String → String → ℚ → Option JupiterQuote :=
  fun _ _ _ => some { inAmount := 100000000, outAmount := 100700000 }

/-- A quote oracle that always fails (plumbing failure on every request). -/
def quotesDown : String → String → ℚ → Option JupiterQuote :=
  fun _ _ _ => none

/-- A live environment whose swap-building and submission oracles always
fail; the mock path never consults it. -/
def envDown : LiveEnv :=
  { swapTx := fun _ => none, sendTx := fun _ => none }

/-- A concrete opportunity record used to instantiate the theorems. -/
def oppEx : OpportunityRecord :=
  { id := "o1", userId := "u1", tokenA := "A", tokenB := "B"
  , priceA := 1, priceB := 1, profitOpportunity := 7/10000
  , profitPercentage := 7/10, amountRequired := 1/10
  , dexA := "Jupiter", dexB := "Jupiter", detectedAt := 0, wasExecuted := false }

/-- A concrete evaluator result used to instantiate the theorems. -/
def oppResEx : OppResult :=
  { profitOpportunity := 7/10000, profitPercentage := 7/10
  , priceA := 1007000000, priceB := 1007000000 }

/-- A concrete successful executor outcome used to instantiate the theorems. -/
def execOkEx : ExecOutcome :=
  .result { success := true, txSignature := some "sig1", profit := some (7/1000) }

/-- C3: when both legs quote successfully on positive amounts, the evaluator
returns `profit = Q2.outAmount` (converted to whole tokenA units) minus the
original input amount, and `profitPercentage = profit / inputAmount * 100`. -/
theorem evaluate_profit_formula
    (quotes : String → String → ℚ → Option JupiterQuote)
    (tokenA tokenB : String) (amount : ℚ) (q1 q2 : JupiterQuote)
    (h1 : quotes tokenA tokenB amount = some q1)
    (h2 : quotes tokenB tokenA ((q1.outAmount : ℚ) / lamports) = some q2)
    (hamt : 0 < amount) (hq1 : 0 < q1.outAmount) (hq2 : 0 < q2.outAmount) :
    ∃ r, simulateArbitrageOpportunity quotes tokenA tokenB amount = some r ∧
      r.profitOpportunity = (q2.outAmount : ℚ) / lamports - amount ∧
      r.profitPercentage = r.profitOpportunity / amount * 100 := by
  refine ⟨{ profitOpportunity := (q2.outAmount : ℚ) / lamports - amount
          , profitPercentage := ((q2.outAmount : ℚ) / lamports - amount) / amount * 100
          , priceA := (q1.outAmount : ℚ) / ((q1.inAmount : ℚ) / lamports)
          , priceB := (q2.outAmount : ℚ) / ((q2.inAmount : ℚ) / lamports) },
        ?_, rfl, rfl⟩
  simp [simulateArbitrageOpportunity, h1, h2]

/-- Witness for `evaluate_profit_formula` at the spec's worked scenario:
0.1 tokenA in, 0.1007 tokenA back. -/
theorem evaluate_profit_formula_witness :
    ∃ r, simulateArbitrageOpportunity quotesGain "A" "B" (1/10) = some r ∧
      r.profitOpportunity = ((100700000 : ℕ) : ℚ) / lamports - 1/10 ∧
      r.profitPercentage = r.profitOpportunity / (1/10) * 100 :=
  evaluate_profit_formula quotesGain "A" "B" (1/10)
    { inAmount := 100000000, outAmount := 100700000 }
    { inAmount := 100000000, outAmount := 100700000 }
    rfl rfl (by norm_num) (by norm_num) (by norm_num)

/-- C7 counterexample: with a quote of 2e9 raw units in and 2e9 raw units out
on both legs, the source computes `priceA = 1e9`, while the output-over-input
ratio with both sides in the same unit scale is `1` — the source divides the
raw smallest-unit output by the input converted to whole units, so the claim's
same-unit-scale reading fails. -/
theorem mixed_scale_price_counterexample :
    (simulateArbitrageOpportunity quotesFlat "T1" "T2" 2).map OppResult.priceA
      = some 1000000000 ∧
    sameScalePrice { inAmount := 2000000000, outAmount := 2000000000 } = 1 ∧
    (1000000000 : ℚ) ≠ 1 := by
  refine ⟨?_, ?_, by norm_num⟩
  · simp only [simulateArbitrageOpportunity, quotesFlat, Option.map]
    norm_num [lamports]
  · norm_num [sameScalePrice]

/-- C7 amended: for successful legs, `priceA` is the first leg's raw
smallest-unit output divided by its input converted to whole units — that is,
`1e9` times the same-unit-scale output/input ratio — and `priceB` likewise
for the second leg. -/
theorem price_formula_raw_over_scaled
    (quotes : String → String → ℚ → Option JupiterQuote)
    (tokenA tokenB : String) (amount : ℚ) (q1 q2 : JupiterQuote)
    (h1 : quotes tokenA tokenB amount = some q1)
    (h2 : quotes tokenB tokenA ((q1.outAmount : ℚ) / lamports) = some q2) :
    ∃ r, simulateArbitrageOpportunity quotes tokenA tokenB amount = some r ∧
      r.priceA = (q1.outAmount : ℚ) / ((q1.inAmount : ℚ) / lamports) ∧
      r.priceA = lamports * sameScalePrice q1 ∧
      r.priceB = (q2.outAmount : ℚ) / ((q2.inAmount : ℚ) / lamports) ∧
      r.priceB = lamports * sameScalePrice q2 := by
  have key : ∀ a b c : ℚ, a / (b / c) = c * (a / b) := by
    intro a b c
    rw [div_div_eq_mul_div, mul_comm, mul_div_assoc]
  refine ⟨{ profitOpportunity := (q2.outAmount : ℚ) / lamports - amount
          , profitPercentage := ((q2.outAmount : ℚ) / lamports - amount) / amount * 100
          , priceA := (q1.outAmount : ℚ) / ((q1.inAmount : ℚ) / lamports)
          , priceB := (q2.outAmount : ℚ) / ((q2.inAmount : ℚ) / lamports) },
        ?_, rfl, key _ _ _, rfl, key _ _ _⟩
  simp [simulateArbitrageOpportunity, h1, h2]

/-- Witness for `price_formula_raw_over_scaled` on the constant 2e9/2e9
oracle. -/
theorem price_formula_raw_over_scaled_witness :
    ∃ r, simulateArbitrageOpportunity quotesFlat "T1" "T2" 2 = some r ∧
      r.priceA = ((2000000000 : ℕ) : ℚ) / (((2000000000 : ℕ) : ℚ) / lamports) ∧
      r.priceA = lamports * sameScalePrice { inAmount := 2000000000, outAmount := 2000000000 } ∧
      r.priceB = ((2000000000 : ℕ) : ℚ) / (((2000000000 : ℕ) : ℚ) / lamports) ∧
      r.priceB = lamports * sameScalePrice { inAmount := 2000000000, outAmount := 2000000000 } :=
  price_formula_raw_over_scaled quotesFlat "T1" "T2" 2
    { inAmount := 2000000000, outAmount := 2000000000 }
    { inAmount := 2000000000, outAmount := 2000000000 } rfl rfl

/-- C8: in mock mode the executor's result is independent of wallet and chain
environment, succeeds exactly when the fresh re-evaluation returns data, on
success carries the synthetic signature `"mock_tx_" ++ now` (so it is
`mock_tx_`-prefixed, distinguishable from a live signature), and fails only
with the simulation-failure message, with no signature. -/
theorem mock_mode_execution
    (quotes : String → String → ℚ → Option JupiterQuote)
    (env env' : LiveEnv) (hasWallet hasWallet' : Bool)
    (tokenA tokenB : String) (amount : ℚ) (now : Nat) :
    executeArbitrage quotes env hasWallet tokenA tokenB amount true now
      = executeArbitrage quotes env' hasWallet' tokenA tokenB amount true now ∧
    ((executeArbitrage quotes env hasWallet tokenA tokenB amount true now).success = true
      ↔ (simulateArbitrageOpportunity quotes tokenA tokenB amount).isSome = true) ∧
    ((executeArbitrage quotes env hasWallet tokenA tokenB amount true now).success = true →
      (executeArbitrage quotes env hasWallet tokenA tokenB amount true now).txSignature
        = some ("mock_tx_" ++ toString now) ∧
      ∃ rest, "mock_tx_" ++ toString now = "mock_tx_" ++ rest) ∧
    ((executeArbitrage quotes env hasWallet tokenA tokenB amount true now).success = false →
      (executeArbitrage quotes env hasWallet tokenA tokenB amount true now).error
        = some "Failed to simulate trade" ∧
      (executeArbitrage quotes env hasWallet tokenA tokenB amount true now).txSignature
        = none) := by
  cases hsim : simulateArbitrageOpportunity quotes tokenA tokenB amount <;>
    simp [executeArbitrage, hsim]

/-- Witness for `mock_mode_execution`: a wallet-less mock run on the gaining
oracle reports the synthetic signature. -/
theorem mock_mode_execution_witness :
    (executeArbitrage quotesGain envDown false "A" "B" (1/10) true 42).txSignature
      = some ("mock_tx_" ++ toString 42) ∧
    ∃ rest, "mock_tx_" ++ toString 42 = "mock_tx_" ++ rest :=
  (mock_mode_execution quotesGain envDown envDown false false "A" "B" (1/10) 42).2.2.1 rfl

/-- C1: a tick run while the engine is running with a config whose body
raises increments the consecutive-error counter; below the ceiling the engine
keeps running, and when the counter reaches `MAX_ERRORS = 5` the engine
transitions from running to idle with the timer disarmed and the tick's event
log contains a `bot_status` broadcast with a non-empty error message. -/
theorem scan_throws_increments_and_stops_at_budget
    (armed : Bool) (cfg : BotConfig) (last errs now : Nat) (msg : String)
    (exec : ExecOutcome) (oppId tradeId : String) :
    (scanForOpportunities ⟨true, armed, some cfg, last, errs⟩ now
        (.throws msg) exec oppId tradeId).1.errorCount = errs + 1 ∧
    (errs + 1 < MAX_ERRORS →
      (scanForOpportunities ⟨true, armed, some cfg, last, errs⟩ now
          (.throws msg) exec oppId tradeId).1.isRunning = true) ∧
    (errs + 1 ≥ MAX_ERRORS →
      (scanForOpportunities ⟨true, armed, some cfg, last, errs⟩ now
          (.throws msg) exec oppId tradeId).1.isRunning = false ∧
      (scanForOpportunities ⟨true, armed, some cfg, last, errs⟩ now
          (.throws msg) exec oppId tradeId).1.scanIntervalArmed = false ∧
      (scanForOpportunities ⟨true, armed, some cfg, last, errs⟩ now
          (.throws msg) exec oppId tradeId).2.any Event.nonEmptyErrorStatus = true) := by
  by_cases h : errs + 1 ≥ MAX_ERRORS
  · simp [scanForOpportunities, stop, broadcastBotStatus, h,
      Event.nonEmptyErrorStatus, not_le.mp]
  · have h' : ¬ errs + 1 ≥ MAX_ERRORS := h
    simp [scanForOpportunities, stop, broadcastBotStatus, h', not_le.mp h']

/-- Witness for `scan_throws_increments_and_stops_at_budget`: the fifth
consecutive failing tick stops the engine and broadcasts a non-empty error
status. -/
theorem scan_error_budget_witness :
    (scanForOpportunities ⟨true, true, some cfgEx, 0, 4⟩ 9
        (.throws "boom") (.throws "x") "o1" "t1").1.isRunning = false ∧
    (scanForOpportunities ⟨true, true, some cfgEx, 0, 4⟩ 9
        (.throws "boom") (.throws "x") "o1" "t1").2.any Event.nonEmptyErrorStatus = true :=
  ⟨((scan_throws_increments_and_stops_at_budget true cfgEx 0 4 9 "boom"
      (.throws "x") "o1" "t1").2.2 (by decide)).1,
   ((scan_throws_increments_and_stops_at_budget true cfgEx 0 4 9 "boom"
      (.throws "x") "o1" "t1").2.2 (by decide)).2.2⟩

/-- C2: on a data tick, a profit percentage strictly below the threshold
yields an empty event log (no opportunity record, no trade record, no
executor invocation); at or above the threshold the tick creates and
broadcasts exactly one opportunity, creates exactly one trade, invokes the
executor exactly once, and the opportunity creation precedes both the trade
creation and the executor invocation. -/
theorem threshold_gates_opportunity_and_trade
    (armed : Bool) (cfg : BotConfig) (last errs now : Nat) (o : OppResult)
    (exec : ExecOutcome) (oppId tradeId : String) :
    (o.profitPercentage < cfg.profitThreshold →
      (scanForOpportunities ⟨true, armed, some cfg, last, errs⟩ now
          (.data o) exec oppId tradeId).2 = []) ∧
    (o.profitPercentage ≥ cfg.profitThreshold →
      ((scanForOpportunities ⟨true, armed, some cfg, last, errs⟩ now
          (.data o) exec oppId tradeId).2.countP Event.isCreateOpportunity = 1 ∧
       (scanForOpportunities ⟨true, armed, some cfg, last, errs⟩ now
          (.data o) exec oppId tradeId).2.countP Event.isBroadcastOpportunity = 1 ∧
       (scanForOpportunities ⟨true, armed, some cfg, last, errs⟩ now
          (.data o) exec oppId tradeId).2.countP Event.isCreateTrade = 1 ∧
       (scanForOpportunities ⟨true, armed, some cfg, last, errs⟩ now
          (.data o) exec oppId tradeId).2.countP Event.isInvokeExecutor = 1 ∧
       (scanForOpportunities ⟨true, armed, some cfg, last, errs⟩ now
          (.data o) exec oppId tradeId).2.findIdx Event.isCreateOpportunity
         < (scanForOpportunities ⟨true, armed, some cfg, last, errs⟩ now
            (.data o) exec oppId tradeId).2.findIdx Event.isCreateTrade ∧
       (scanForOpportunities ⟨true, armed, some cfg, last, errs⟩ now
          (.data o) exec oppId tradeId).2.findIdx Event.isCreateTrade
         < (scanForOpportunities ⟨true, armed, some cfg, last, errs⟩ now
            (.data o) exec oppId tradeId).2.findIdx Event.isInvokeExecutor)) := by
  constructor
  · intro h
    simp [scanForOpportunities, not_le.mpr h]
  · intro h
    rcases exec with msg | r
    · simp [scanForOpportunities, executeTrade, h, List.findIdx_cons,
        Event.isCreateOpportunity, Event.isBroadcastOpportunity,
        Event.isCreateTrade, Event.isInvokeExecutor]
    · by_cases hs : r.success <;>
        simp [scanForOpportunities, executeTrade, h, hs, List.findIdx_cons,
          Event.isCreateOpportunity, Event.isBroadcastOpportunity,
          Event.isCreateTrade, Event.isInvokeExecutor]

/-- Witness for `threshold_gates_opportunity_and_trade`: a 0.7% opportunity
against a 0.5% threshold yields exactly one trade creation. -/
theorem threshold_gates_witness :
    (scanForOpportunities ⟨true, true, some cfgEx, 0, 0⟩ 3
        (.data oppResEx) (.throws "x") "o1" "t1").2.countP Event.isCreateTrade = 1 :=
  ((threshold_gates_opportunity_and_trade true cfgEx 0 0 3 oppResEx
      (.throws "x") "o1" "t1").2 (by norm_num [cfgEx, oppResEx])).2.2.1

/-- C6 counterexample: a tick in which the evaluator returns no data returns
early, before the counter reset at the end of the `try` block — with the
counter at 3, it is still 3 after the tick, not 0. -/
theorem no_data_tick_preserves_error_count :
    (scanForOpportunities ⟨true, true, some cfgEx, 0, 3⟩ 7
        .noData (.throws "x") "o1" "t1").1.errorCount = 3 ∧
    (3 : Nat) ≠ 0 := by
  exact ⟨rfl, by decide⟩

/-- C6 amended: a tick in which the evaluator returns data (whether or not
the threshold is met) resets the consecutive-error counter to 0; a tick in
which the evaluator returns no data leaves the counter unchanged. -/
theorem data_tick_resets_error_count
    (armed : Bool) (cfg : BotConfig) (last errs now : Nat) (o : OppResult)
    (exec : ExecOutcome) (oppId tradeId : String) :
    (scanForOpportunities ⟨true, armed, some cfg, last, errs⟩ now
        (.data o) exec oppId tradeId).1.errorCount = 0 ∧
    (scanForOpportunities ⟨true, armed, some cfg, last, errs⟩ now
        .noData exec oppId tradeId).1.errorCount = errs := by
  constructor
  · by_cases h : o.profitPercentage ≥ cfg.profitThreshold <;>
      simp [scanForOpportunities, h]
  · rfl

/-- C4: `executeTrade` first creates the trade in `pending` status with
`amountOut = 0` and `profit = 0`, and on every executor outcome (success,
failure result, or a thrown exception) the last record written for the trade
id has status `completed` or `failed` — no trade is left `pending` when the
call returns. -/
theorem trade_reaches_terminal_status
    (cfg : BotConfig) (opp : OpportunityRecord) (tradeId : String) (now : Nat)
    (exec : ExecOutcome) :
    ((executeTrade cfg opp tradeId now exec).head?
        = some (.createTrade (mkPendingTrade cfg tradeId now)) ∧
      (mkPendingTrade cfg tradeId now).status = .pending ∧
      (mkPendingTrade cfg tradeId now).amountOut = 0 ∧
      (mkPendingTrade cfg tradeId now).profit = 0) ∧
    ∃ t, lastTradeWrite (executeTrade cfg opp tradeId now exec) tradeId = some t ∧
      (t.status = .completed ∨ t.status = .failed) := by
  refine ⟨⟨rfl, rfl, rfl, rfl⟩, ?_⟩
  rcases exec with msg | r
  · exact ⟨{ mkPendingTrade cfg tradeId now with
             status := .failed, errorMessage := some msg },
      by simp [executeTrade, lastTradeWrite], Or.inr rfl⟩
  · by_cases hs : r.success
    · exact ⟨{ mkPendingTrade cfg tradeId now with
               amountOut := (mkPendingTrade cfg tradeId now).amountIn + r.profit.getD 0,
               profit := r.profit.getD 0,
               profitPercentage :=
                 r.profit.getD 0 / (mkPendingTrade cfg tradeId now).amountIn * 100,
               txSignature := r.txSignature, status := .completed },
        by simp [executeTrade, lastTradeWrite, hs], Or.inl rfl⟩
    · exact ⟨{ mkPendingTrade cfg tradeId now with
               status := .failed, errorMessage := r.error },
        by simp [executeTrade, lastTradeWrite, hs], Or.inr rfl⟩

/-- C5: an `updateOpportunity` event with `wasExecuted = true` appears in the
`executeTrade` log exactly when the trade's last written record is
`completed`, and every `updateOpportunity` event in the log targets the
originating opportunity, sets `wasExecuted = true` and links the trade id in
the same patch — so on failure or exception no opportunity update occurs at
all. -/
theorem wasExecuted_iff_trade_completed
    (cfg : BotConfig) (opp : OpportunityRecord) (tradeId : String) (now : Nat)
    (exec : ExecOutcome) :
    ((∃ p, Event.updateOpportunity opp.id p ∈ executeTrade cfg opp tradeId now exec ∧
        p.wasExecuted = true)
      ↔ ∃ t, lastTradeWrite (executeTrade cfg opp tradeId now exec) tradeId = some t ∧
          t.status = .completed) ∧
    ∀ i p, Event.updateOpportunity i p ∈ executeTrade cfg opp tradeId now exec →
      i = opp.id ∧ p.wasExecuted = true ∧ p.executedTradeId = some tradeId := by
  rcases exec with msg | r
  · simp [executeTrade, lastTradeWrite]
  · by_cases hs : r.success <;> simp [executeTrade, lastTradeWrite, hs]

/-- Witness for `wasExecuted_iff_trade_completed`: the single opportunity
update of a successful concrete trade targets the opportunity and links the
trade id. -/
theorem wasExecuted_iff_witness :
    "o1" = oppEx.id ∧ (OppPatch.mk true (some "t1")).wasExecuted = true ∧
    (OppPatch.mk true (some "t1")).executedTradeId = some "t1" :=
  (wasExecuted_iff_trade_completed cfgEx oppEx "t1" 5 execOkEx).2 "o1"
    (OppPatch.mk true (some "t1")) (by decide)

/-- C10: on an executor failure result or a thrown exception, the record
written over the pending trade is exactly the pending record with only
`status` (to `failed`) and `errorMessage` changed — `amountIn`, `amountOut`,
`profit` and `profitPercentage` keep their pending values (0 for the last
three) and no `txSignature` is set. -/
theorem failed_trade_update_frame
    (cfg : BotConfig) (opp : OpportunityRecord) (tradeId : String) (now : Nat)
    (exec : ExecOutcome) (h : execFails exec) :
    lastTradeWrite (executeTrade cfg opp tradeId now exec) tradeId =
      some { mkPendingTrade cfg tradeId now with
             status := .failed, errorMessage := execErrorMessage exec } ∧
    (mkPendingTrade cfg tradeId now).amountIn = cfg.maxTradeAmount ∧
    (mkPendingTrade cfg tradeId now).amountOut = 0 ∧
    (mkPendingTrade cfg tradeId now).profit = 0 ∧
    (mkPendingTrade cfg tradeId now).profitPercentage = 0 ∧
    (mkPendingTrade cfg tradeId now).txSignature = none := by
  refine ⟨?_, rfl, rfl, rfl, rfl, rfl⟩
  rcases exec with msg | r
  · simp [executeTrade, lastTradeWrite, execErrorMessage]
  · have hs : r.success = false := h
    simp [executeTrade, lastTradeWrite, execErrorMessage, hs]

/-- Witness for `failed_trade_update_frame`: a thrown executor exception on a
concrete trade leaves only status and error message changed. -/
theorem failed_trade_update_frame_witness :
    lastTradeWrite (executeTrade cfgEx oppEx "t1" 5 (.throws "boom")) "t1" =
      some { mkPendingTrade cfgEx "t1" 5 with
             status := .failed, errorMessage := some "boom" } :=
  (failed_trade_update_frame cfgEx oppEx "t1" 5 (.throws "boom") trivial).1

/-- C9 counterexample: start the engine then stop it — the running flag is
false, yet the `config` getter still reports the configuration (the source
never clears `currentConfig`), so the configuration is not absent whenever
the engine is not running. -/
theorem config_present_after_stop_counterexample :
    (stop (start initialState cfgEx true).1).1.isRunning = false ∧
    (stop (start initialState cfgEx true).1).1.config = some cfgEx ∧
    some cfgEx ≠ (none : Option BotConfig) := by
  exact ⟨rfl, rfl, by simp⟩

/-- C9 amended: the `config` getter reports the configuration absent only
before the first `Start`: the initial state has no config, `Stop` leaves
whatever config is present untouched, and any non-running `Start` (successful
or failed) installs the given config — so after a stop or a failed start the
getter still reports the last configuration although the running flag is
false. -/
theorem config_retained_outside_running :
    initialState.config = none ∧
    (∀ s : EngineState, (stop s).1.config = s.config) ∧
    (∀ (s : EngineState) (cfg : BotConfig) (walletOk : Bool),
      s.isRunning = false → (start s cfg walletOk).1.config = some cfg) := by
  refine ⟨rfl, ?_, ?_⟩
  · intro s
    by_cases h : s.isRunning <;> simp [stop, EngineState.config, h]
  · intro s cfg walletOk h
    by_cases hw : cfg.privateKey.isSome && !walletOk <;>
      simp [start, EngineState.config, h, hw]

/-- Witness for `config_retained_outside_running`: a failed start from the
initial state still installs the config. -/
theorem config_retained_witness :
    (start initialState cfgEx false).1.config = some cfgEx :=
  config_retained_outside_running.2.2 initialState cfgEx false rfl

end ArbBot
